import Mathlib

/-!
Verification of the City Scout front-end authentication and profile code
(`src/context/AuthContext.tsx` and `src/pages/Auth.tsx`) against its
natural-language specification.

The TypeScript code is effectful React/Supabase glue.  We embed it
shallowly: every operation becomes a pure Lean function from an
environment (describing the responses of the external Supabase backend)
and the local provider state to a result (`Except` for functions that
can throw), the new local state, and the ordered list of observable
effects (HTTP calls, SDK calls, database updates, storage operations,
navigations and toasts) the operation issues.
-/

namespace CityScout

/-- The shape of the `personality_tiles` JSON value rendered by the
profile page (interface `PersonalityTiles` in `src/pages/Auth.tsx`).
Field names are the camel-cased versions of the JSON keys. -/
structure PersonalityTiles where
  lifestyleVibes : List String
  lifestyleVibesReason : String
  foodDrinkFavorites : List String
  foodDrinkFavoritesReason : String
  goToActivities : List String
  goToActivitiesReason : String
  favoriteNeighborhoods : List String
  favoriteNeighborhoodsReason : String
  travelExploration : List String
  travelExplorationReason : String
  otherInterests : List String
  otherInterestsReason : String
deriving DecidableEq, Repr

/-- A JSON-ish value stored in a column of the `profiles` row. -/
inductive JsonVal where
  | null
  | bool (b : Bool)
  | str (s : String)
  | tiles (t : PersonalityTiles)
deriving DecidableEq, Repr

/-- A `profiles` row, modelled as a total map from
column names to values; absent columns read as `null`.  This captures the
TypeScript object-spread semantics used by `updateProfile` and
`resetUserData`. -/
def Profile : Type := String → JsonVal

/-- A Supabase `User`: only its `id` is used by this code. -/
structure UserT where
  id : String
deriving DecidableEq, Repr

/-- A Supabase `Session`: the fields this code reads. -/
structure Session where
  access_token : String
  provider_token : Option String
  user : UserT
deriving DecidableEq, Repr

/-- The local React state of the provider: the `session`, `user` and `profile`
`useState` cells of `AuthProvider`. -/
structure AuthState where
  session : Option Session
  user : Option UserT
  profile : Option Profile

/-- The observable effects an operation can issue, in program order. -/
inductive Effect where
  | fetchPost (url : String) (authHeader : String) (bodyUserId : String)
  | sdkSignOut
  | dbUpdate (table : String) (rowId : String) (us : List (String × JsonVal))
  | storageRemove (bucket : String) (path : String)
  | storageDownload (bucket : String) (path : String)
  | navigate (route : String)
  | toastSuccess (msg : String)
  | toastError (msg : String)
  | oauthSignIn (provider : String) (redirectTo : String) (scopes : String)
  | setLoading (b : Bool)
deriving DecidableEq, Repr

/-- Recognizes the HTTP POST issued by `deleteAccount` (the only direct
`fetch` in the code, targeting the `delete-user` edge function). -/
def Effect.isFetchPost : Effect → Bool
  | .fetchPost _ _ _ => true
  | _ => false

/-- Recognizes a `profiles` table update issued through the SDK. -/
def Effect.isDbUpdate : Effect → Bool
  | .dbUpdate _ _ _ => true
  | _ => false

/-- Recognizes a storage object removal. -/
def Effect.isStorageRemove : Effect → Bool
  | .storageRemove _ _ => true
  | _ => false

/-- Recognizes a storage object download. -/
def Effect.isStorageDownload : Effect → Bool
  | .storageDownload _ _ => true
  | _ => false

/-- Recognizes an error toast shown to the user. -/
def Effect.isToastError : Effect → Bool
  | .toastError _ => true
  | _ => false

/-- The hard-coded Supabase project id (`SUPABASE_PROJECT_ID` in
`AuthContext.tsx`). -/
def SUPABASE_PROJECT_ID : String := "zgdrcbdrmnhvfzygyecx"

/-- The URL of the `delete-user` edge function built by `deleteAccount`. -/
def deleteUserUrl : String :=
  "https://" ++ SUPABASE_PROJECT_ID ++ ".supabase.co/functions/v1/delete-user"

/-- The storage path of the personality report of a user, as built in both
`resetUserData` and the profile page (`user_data/<id>/personality_report.txt`). -/
def reportPath (userId : String) : String :=
  "user_data/" ++ userId ++ "/personality_report.txt"

/-- TypeScript object spread `\x7b...prev, ...updates\x7d`: apply each
update left to right, later keys overriding earlier values. -/
def applyUpdates (p : Profile) (us : List (String × JsonVal)) : Profile :=
  us.foldl (fun f kv => Function.update f kv.1 kv.2) p

/-- The local state with `session`, `user` and `profile` all cleared. -/
def clearedState : AuthState := { session := none, user := none, profile := none }

/-! ### deleteAccount (`AuthContext.tsx` lines 242-285) -/

/-- Backend responses relevant to `deleteAccount`: whether the `fetch`
itself rejects, the `response.ok` flag, the `error` field of the JSON
body, and whether the follow-up SDK sign-out throws (its outcome is
swallowed by the code, so it cannot influence the result). -/
structure DeleteEnv where
  fetchRejects : Bool
  fetchOk : Bool
  resultError : Option String
  signOutThrows : Bool
deriving DecidableEq, Repr

/-- Shallow embedding of `deleteAccount`.  An unauthenticated call throws
inside the outer `try`, so the `catch` still shows the failure toast and
rethrows.  An authenticated call POSTs to the `delete-user` function with
the access token of the session and the user id; on `response.ok` it clears
all three state cells, signs out of the SDK (errors swallowed), navigates
home and shows a success toast; otherwise the `catch` shows the failure
toast and rethrows. -/
def deleteAccount (env : DeleteEnv) (s : AuthState) :
    Except String Unit × AuthState × List Effect :=
  match s.user, s.session with
  | some u, some sess =>
      let fe := Effect.fetchPost deleteUserUrl ("Bearer " ++ sess.access_token) u.id
      if env.fetchRejects then
        (.error "fetch rejected", s,
          [fe, Effect.toastError "Failed to delete account. Please try again."])
      else if !env.fetchOk then
        (.error (env.resultError.getD "Failed to delete account"), s,
          [fe, Effect.toastError "Failed to delete account. Please try again."])
      else
        (.ok (), clearedState,
          [fe, Effect.sdkSignOut, Effect.navigate "/",
           Effect.toastSuccess "Your account has been successfully deleted"])
  | _, _ =>
      (.error "User not authenticated", s,
        [Effect.toastError "Failed to delete account. Please try again."])

/-! ### resetUserData (`AuthContext.tsx` lines 287-324) -/

/-- The fixed update object built by `resetUserData`. -/
def resetUpdates : List (String × JsonVal) :=
  [("onboarding_completed", .bool false),
   ("has_personality_insights", .bool false),
   ("preference_chosen", .bool false),
   ("personality_tiles", .null)]

/-- The four column names touched by `resetUserData`. -/
def resetFieldNames : List String :=
  ["onboarding_completed", "has_personality_insights", "preference_chosen",
   "personality_tiles"]

/-- Backend responses relevant to `resetUserData`: the error of the
`profiles` update, and whether the storage removal fails (the code
ignores that outcome entirely). -/
structure ResetEnv where
  dbUpdateError : Option String
  storageRemoveFails : Bool
deriving DecidableEq, Repr

/-- Shallow embedding of `resetUserData`.  Unauthenticated calls throw
with no effects.  Otherwise the `profiles` row is updated first; a
database error throws before anything else happens.  On success the
personality report is removed from storage (failures swallowed by the
inner `try`), the same updates are merged into the local profile, and
navigation to `/` occurs. -/
def resetUserData (env : ResetEnv) (s : AuthState) :
    Except String Unit × AuthState × List Effect :=
  match s.user with
  | none => (.error "User not authenticated", s, [])
  | some u =>
      let de := Effect.dbUpdate "profiles" u.id resetUpdates
      match env.dbUpdateError with
      | some e => (.error e, s, [de])
      | none =>
          (.ok (),
           { s with profile := s.profile.map (fun p => applyUpdates p resetUpdates) },
           [de, Effect.storageRemove "user_files" (reportPath u.id),
            Effect.navigate "/"])

/-! ### updateProfile (`AuthContext.tsx` lines 196-215) -/

/-- Backend response relevant to `updateProfile`. -/
structure UpdateEnv where
  dbUpdateError : Option String
deriving DecidableEq, Repr

/-- Shallow embedding of `updateProfile`.  Without an authenticated user
it throws `User not authenticated` before issuing any backend call.
Otherwise it updates the `profiles` row keyed on the user id with
exactly the given updates; on success it merges the updates into the
local profile (object spread), on error it rethrows with the local
profile unchanged. -/
def updateProfile (env : UpdateEnv) (us : List (String × JsonVal))
    (s : AuthState) : Except String Unit × AuthState × List Effect :=
  match s.user with
  | none => (.error "User not authenticated", s, [])
  | some u =>
      let de := Effect.dbUpdate "profiles" u.id us
      match env.dbUpdateError with
      | some e => (.error e, s, [de])
      | none =>
          (.ok (),
           { s with profile := s.profile.map (fun p => applyUpdates p us) },
           [de])

/-! ### signOut (`AuthContext.tsx` lines 171-194) -/

/-- Backend response relevant to `signOut`: the error, if any, reported
or thrown by `supabase.auth.signOut()`. -/
structure SignOutEnv where
  signOutError : Option String
deriving DecidableEq, Repr

/-- Shallow embedding of `signOut`.  On SDK success it clears all three
state cells and navigates home.  On SDK error the thrown error lands in
the `catch`, which clears the same cells, navigates home, and rethrows:
the state change is never rolled back. -/
def signOut (env : SignOutEnv) (_s : AuthState) :
    Except String Unit × AuthState × List Effect :=
  match env.signOutError with
  | none =>
      (.ok (), clearedState, [Effect.sdkSignOut, Effect.navigate "/"])
  | some e =>
      (.error e, clearedState, [Effect.sdkSignOut, Effect.navigate "/"])

/-! ### getGoogleAuthToken (`AuthContext.tsx` lines 217-240) -/

/-- Backend responses relevant to `getGoogleAuthToken`: the error of the
`supabase.auth.getSession()` refresh and the session it returns. -/
structure TokenEnv where
  getSessionError : Option String
  refreshedSession : Option Session
deriving DecidableEq, Repr

/-- The body of `getGoogleAuthToken` inside its `try`: returns `null`
without a local session, throws on a `getSession` error, and returns the
provider token of the refreshed session when present and non-empty (the code
tests JavaScript truthiness, so an empty string also yields `null`). -/
def getGoogleAuthTokenBody (env : TokenEnv) (s : AuthState) :
    Except String (Option String) :=
  match s.session with
  | none => .ok none
  | some _ =>
      match env.getSessionError with
      | some e => .error e
      | none =>
          match env.refreshedSession with
          | none => .ok none
          | some sess =>
              match sess.provider_token with
              | none => .ok none
              | some t => if t = "" then .ok none else .ok (some t)

/-- Shallow embedding of the whole `getGoogleAuthToken`, `catch`
included: any exception from the body is converted to `null`, so the
function never rejects. -/
def getGoogleAuthToken (env : TokenEnv) (s : AuthState) :
    Except String (Option String) :=
  match getGoogleAuthTokenBody env s with
  | .ok r => .ok r
  | .error _ => .ok none

/-! ### signInWithGoogle and the login view (`AuthContext.tsx` 109-132,
`Auth.tsx` 13-23) -/

/-- Backend response relevant to `signInWithGoogle`. -/
structure OAuthEnv where
  oauthError : Option String
deriving DecidableEq, Repr

/-- Shallow embedding of `signInWithGoogle`: one `signInWithOAuth` call
with provider `google`, `redirectTo` the current window origin, and
scopes `email profile`; it throws exactly when the SDK reports an
error. -/
def signInWithGoogle (env : OAuthEnv) (origin : String) :
    Except String Unit × List Effect :=
  let e := Effect.oauthSignIn "google" origin "email profile"
  match env.oauthError with
  | none => (.ok (), [e])
  | some err => (.error err, [e])

/-- Shallow embedding of `handleGoogleSignIn` in the login view: sets
`loading` to `true`, awaits `signInWithGoogle`, shows an error toast on
rejection without rethrowing, and resets `loading` to `false` in the
`finally` block.  Returns the result seen by React (never an exception),
the final `loading` value, and the effect trace. -/
def handleGoogleSignIn (env : OAuthEnv) (origin : String) :
    Except String Unit × Bool × List Effect :=
  let r := signInWithGoogle env origin
  match r.1 with
  | .ok _ =>
      (.ok (), false,
        Effect.setLoading true :: r.2 ++ [Effect.setLoading false])
  | .error _ =>
      (.ok (), false,
        Effect.setLoading true :: r.2 ++
          [Effect.toastError "Failed to sign in with Google. Please try again.",
           Effect.setLoading false])

/-! ### The profile view (`Auth.tsx`, `Profile` component) -/

/-- Backend response relevant to the data fetch of the profile page: the
outcome of downloading the personality report from storage. -/
structure ProfileViewEnv where
  downloadResult : Except String String
deriving Repr

/-- The local state of the profile page after `fetchPersonalityData`. -/
structure ProfileViewState where
  personalityReport : Option String
  personalityTiles : Option PersonalityTiles
  loading : Bool

/-- Extracts the tiles from a profile column value when it has the
expected shape (the code casts `profile.personality_tiles` unchecked). -/
def tilesOf : JsonVal → Option PersonalityTiles
  | .tiles t => some t
  | _ => none

/-- Shallow embedding of `fetchPersonalityData` in the profile view: the
tiles come from the `personality_tiles` column of the context profile
row when truthy; the report is downloaded from storage at
`user_data/<id>/personality_report.txt` in the `user_files` bucket, and a
download error is only logged (no toast, report left unset). -/
def fetchPersonalityData (env : ProfileViewEnv) (u : UserT)
    (profile : Option Profile) : ProfileViewState × List Effect :=
  let tiles : Option PersonalityTiles :=
    match profile with
    | some p => tilesOf (p "personality_tiles")
    | none => none
  let dl := Effect.storageDownload "user_files" (reportPath u.id)
  match env.downloadResult with
  | .error _ =>
      ({ personalityReport := none, personalityTiles := tiles, loading := false },
       [dl])
  | .ok text =>
      ({ personalityReport := some text, personalityTiles := tiles, loading := false },
       [dl])

/-- Shallow embedding of `handleLogout` in the profile view: awaits
`signOut`, shows a success toast on success and an error toast on
rejection, and never propagates the rejection. -/
def handleLogout (env : SignOutEnv) (s : AuthState) :
    Except String Unit × AuthState × List Effect :=
  let r := signOut env s
  match r.1 with
  | .ok _ => (.ok (), r.2.1, r.2.2 ++ [Effect.toastSuccess "Logged out successfully"])
  | .error _ =>
      (.ok (), r.2.1, r.2.2 ++ [Effect.toastError "Failed to log out. Please try again."])

/-! ### Auth state transitions (`AuthProvider`, `AuthContext.tsx` 38-88) -/

/-- The `onAuthStateChange` listener: with a session it sets `session`
and `user` together from that same SDK session (the profile fetch is
deferred); without one it clears `session`, `user` and `profile`
together.  The `initializeAuth` found-session path performs the same
assignment. -/
def onAuthStateChange (sess : Option Session) (s : AuthState) : AuthState :=
  match sess with
  | some sess => { s with session := some sess, user := some sess.user }
  | none => clearedState

/-- The deferred `fetchProfile` completing successfully: only the
`profile` cell changes. -/
def setFetchedProfile (p : Profile) (s : AuthState) : AuthState :=
  { s with profile := some p }

/-- The states the provider can reach: the initial state, followed by any
interleaving of auth-state-change events, profile fetches, and the
state-modifying operations, each with an arbitrary backend behaviour. -/
inductive Reachable : AuthState → Prop where
  | init : Reachable clearedState
  | authChange (s : AuthState) (sess : Option Session) :
      Reachable s → Reachable (onAuthStateChange sess s)
  | profileFetched (s : AuthState) (p : Profile) :
      Reachable s → Reachable (setFetchedProfile p s)
  | signOutStep (s : AuthState) (env : SignOutEnv) :
      Reachable s → Reachable (signOut env s).2.1
  | deleteStep (s : AuthState) (env : DeleteEnv) :
      Reachable s → Reachable (deleteAccount env s).2.1
  | resetStep (s : AuthState) (env : ResetEnv) :
      Reachable s → Reachable (resetUserData env s).2.1
  | updateStep (s : AuthState) (env : UpdateEnv) (us : List (String × JsonVal)) :
      Reachable s → Reachable (updateProfile env us s).2.1

/-! ### Helper lemmas -/

/-- Unfolding `applyUpdates` one step. -/
theorem applyUpdates_cons (p : Profile) (kv : String × JsonVal)
    (us : List (String × JsonVal)) :
    applyUpdates p (kv :: us) = applyUpdates (Function.update p kv.1 kv.2) us := rfl

/-- Object spread leaves every key not named in the updates unchanged. -/
theorem applyUpdates_not_mem (us : List (String × JsonVal)) (p : Profile)
    (k : String) (h : k ∉ us.map Prod.fst) : applyUpdates p us k = p k := by
  induction us generalizing p with
  | nil => rfl
  | cons kv rest ih =>
      simp only [List.map_cons, List.mem_cons] at h
      push_neg at h
      rw [applyUpdates_cons, ih _ h.2, Function.update_apply, if_neg h.1]

/-- The values the reset updates assign to each of the four fields. -/
theorem applyUpdates_reset_values (p : Profile) :
    applyUpdates p resetUpdates "onboarding_completed" = .bool false ∧
    applyUpdates p resetUpdates "has_personality_insights" = .bool false ∧
    applyUpdates p resetUpdates "preference_chosen" = .bool false ∧
    applyUpdates p resetUpdates "personality_tiles" = .null := by
  refine ⟨?_, ?_, ?_, ?_⟩ <;>
    simp [resetUpdates, applyUpdates, Function.update_apply]

/-- Sample user for concrete executions. -/
def wUser : UserT := { id := "user-1" }

/-- Sample session for concrete executions. -/
def wSession : Session :=
  { access_token := "tok", provider_token := some "ptok", user := wUser }

/-- Sample profile row for concrete executions. -/
def wProfile : Profile := fun _ => JsonVal.null

/-- Sample authenticated provider state for concrete executions. -/
def wState : AuthState :=
  { session := some wSession, user := some wUser, profile := some wProfile }

/-! ### Claims -/

/-- C1: for every call to `deleteAccount` with an authenticated user
(user and session non-null), account deletion is performed via exactly
one remote function call: a single POST to the `delete-user` function
carrying the access token of the session as a Bearer Authorization
header and the user id in the JSON body; when the response of that call
is ok, the session, user and profile of the provider are all set to
null. -/
theorem deleteAccount_single_remote_call (env : DeleteEnv) (s : AuthState)
    (u : UserT) (sess : Session) (hu : s.user = some u)
    (hs : s.session = some sess) :
    ((deleteAccount env s).2.2).filter Effect.isFetchPost =
      [Effect.fetchPost deleteUserUrl ("Bearer " ++ sess.access_token) u.id] ∧
    (env.fetchRejects = false → env.fetchOk = true →
      (deleteAccount env s).1 = .ok () ∧
      (deleteAccount env s).2.1.session = none ∧
      (deleteAccount env s).2.1.user = none ∧
      (deleteAccount env s).2.1.profile = none) := by
  simp only [deleteAccount, hu, hs]
  by_cases hr : env.fetchRejects <;> by_cases ho : env.fetchOk <;>
    simp [hr, ho, clearedState, Effect.isFetchPost]

/-- A concrete backend environment where account deletion succeeds. -/
def wDeleteEnvOk : DeleteEnv := ⟨false, true, none, false⟩

/-- Witness for C1: a concrete successful deletion issues exactly the
one POST. -/
theorem deleteAccount_single_remote_call_check :
    ((deleteAccount wDeleteEnvOk wState).2.2).filter Effect.isFetchPost =
      [Effect.fetchPost deleteUserUrl ("Bearer " ++ wSession.access_token)
        wUser.id] :=
  (deleteAccount_single_remote_call wDeleteEnvOk wState wUser wSession
    rfl rfl).1

/-- C2: for every call to `resetUserData` with an authenticated user and
a successful database update, exactly the four fields
`onboarding_completed`, `has_personality_insights`, `preference_chosen`
(set to false) and `personality_tiles` (set to null) are reset in the
`profiles` row update and in the local profile state, and exactly one
storage object, `user_data/<id>/personality_report.txt` in the
`user_files` bucket, is removed; every other profile field is left
unchanged, as are the session and user cells. -/
theorem resetUserData_resets_exactly_four_fields (env : ResetEnv)
    (s : AuthState) (u : UserT) (hu : s.user = some u)
    (hok : env.dbUpdateError = none) :
    ((resetUserData env s).2.2).filter Effect.isDbUpdate =
      [Effect.dbUpdate "profiles" u.id resetUpdates] ∧
    ((resetUserData env s).2.2).filter Effect.isStorageRemove =
      [Effect.storageRemove "user_files" (reportPath u.id)] ∧
    resetUpdates.map Prod.fst = resetFieldNames ∧
    (∀ r : Profile,
      applyUpdates r resetUpdates "onboarding_completed" = .bool false ∧
      applyUpdates r resetUpdates "has_personality_insights" = .bool false ∧
      applyUpdates r resetUpdates "preference_chosen" = .bool false ∧
      applyUpdates r resetUpdates "personality_tiles" = .null) ∧
    (∀ (r : Profile) (k : String), k ∉ resetFieldNames →
      applyUpdates r resetUpdates k = r k) ∧
    (resetUserData env s).2.1.profile =
      s.profile.map (fun p => applyUpdates p resetUpdates) ∧
    (resetUserData env s).2.1.session = s.session ∧
    (resetUserData env s).2.1.user = s.user := by
  have hfx : resetUserData env s =
      (.ok (),
       { s with profile := s.profile.map (fun p => applyUpdates p resetUpdates) },
       [Effect.dbUpdate "profiles" u.id resetUpdates,
        Effect.storageRemove "user_files" (reportPath u.id),
        Effect.navigate "/"]) := by
    simp [resetUserData, hu, hok]
  refine ⟨?_, ?_, rfl, applyUpdates_reset_values, ?_, ?_, ?_, ?_⟩
  · rw [hfx]; simp [Effect.isDbUpdate, Effect.isStorageRemove]
  · rw [hfx]; simp [Effect.isDbUpdate, Effect.isStorageRemove]
  · intro r k hk
    exact applyUpdates_not_mem resetUpdates r k hk
  · rw [hfx]
  · rw [hfx]
  · rw [hfx]

/-- A concrete backend environment where the reset database update
succeeds. -/
def wResetEnvOk : ResetEnv := ⟨none, false⟩

/-- Witness for C2: a concrete successful reset updates the row with
exactly the four reset fields. -/
theorem resetUserData_resets_exactly_four_fields_check :
    ((resetUserData wResetEnvOk wState).2.2).filter Effect.isDbUpdate =
      [Effect.dbUpdate "profiles" wUser.id resetUpdates] :=
  (resetUserData_resets_exactly_four_fields wResetEnvOk wState wUser
    rfl rfl).1

/-- A concrete set of tiles stored in a profile row. -/
def wTiles : PersonalityTiles :=
  { lifestyleVibes := ["urban explorer"]
    lifestyleVibesReason := "r1"
    foodDrinkFavorites := ["coffee"]
    foodDrinkFavoritesReason := "r2"
    goToActivities := ["hiking"]
    goToActivitiesReason := "r3"
    favoriteNeighborhoods := ["old town"]
    favoriteNeighborhoodsReason := "r4"
    travelExploration := ["city breaks"]
    travelExplorationReason := "r5"
    otherInterests := ["music"]
    otherInterestsReason := "r6" }

/-- A concrete profile row whose `personality_tiles` column holds
`wTiles`. -/
def wProfileWithTiles : Profile :=
  fun k => if k = "personality_tiles" then JsonVal.tiles wTiles else JsonVal.null

/-- A concrete profile-view environment where the storage download of the
report fails. -/
def wViewEnvErr : ProfileViewEnv := ⟨.error "Object not found"⟩

/-- Counterexample to C3 as stated: with the storage download failing,
nothing at all is fetched from storage (the report stays unset), yet the
profile view still renders the tiles taken from the `profiles` row — so
the rendered tile structure is not the one fetched from storage. -/
theorem profile_view_tiles_not_from_storage :
    wViewEnvErr.downloadResult = .error "Object not found" ∧
    (fetchPersonalityData wViewEnvErr wUser (some wProfileWithTiles)).1.personalityReport
      = none ∧
    (fetchPersonalityData wViewEnvErr wUser (some wProfileWithTiles)).1.personalityTiles
      = some wTiles := by
  refine ⟨rfl, ?_, ?_⟩ <;> rfl

/-- C3 as amended: for every signed-in user the profile view downloads
the report from storage at `user_data/<id>/personality_report.txt` in the
`user_files` bucket (exactly one download, rendered when it succeeds),
while the tile structure rendered is the `personality_tiles` value of the
profile row fetched from the database, not an object from storage. -/
theorem profile_view_report_from_storage_tiles_from_row
    (env : ProfileViewEnv) (u : UserT) (p : Profile) :
    ((fetchPersonalityData env u (some p)).2).filter Effect.isStorageDownload =
      [Effect.storageDownload "user_files" (reportPath u.id)] ∧
    (fetchPersonalityData env u (some p)).1.personalityTiles =
      tilesOf (p "personality_tiles") ∧
    (∀ text, env.downloadResult = .ok text →
      (fetchPersonalityData env u (some p)).1.personalityReport = some text) ∧
    (∀ e, env.downloadResult = .error e →
      (fetchPersonalityData env u (some p)).1.personalityReport = none) := by
  cases h : env.downloadResult <;>
    simp [fetchPersonalityData, h, Effect.isStorageDownload]

/-- A concrete profile-view environment where the storage download of the
report succeeds. -/
def wViewEnvOk : ProfileViewEnv := ⟨.ok "your report"⟩

/-- Witness for the amended C3: a concrete fetch issues exactly one
storage download, at the report path. -/
theorem profile_view_report_from_storage_tiles_from_row_check :
    ((fetchPersonalityData wViewEnvOk wUser (some wProfileWithTiles)).2).filter
        Effect.isStorageDownload =
      [Effect.storageDownload "user_files" (reportPath wUser.id)] :=
  (profile_view_report_from_storage_tiles_from_row wViewEnvOk wUser
    wProfileWithTiles).1

/-- The state produced by `deleteAccount` is either the input state
(failure paths) or the fully cleared state (success path). -/
theorem deleteAccount_state (env : DeleteEnv) (s : AuthState) :
    (deleteAccount env s).2.1 = s ∨ (deleteAccount env s).2.1 = clearedState := by
  obtain ⟨so, uo, po⟩ := s
  cases uo <;> cases so <;> simp only [deleteAccount]
  · exact Or.inl trivial
  · exact Or.inl trivial
  · exact Or.inl trivial
  · split_ifs <;> first | exact Or.inl rfl | exact Or.inr rfl

/-- `resetUserData` never touches the `session` and `user` cells. -/
theorem resetUserData_preserves_auth (env : ResetEnv) (s : AuthState) :
    (resetUserData env s).2.1.session = s.session ∧
    (resetUserData env s).2.1.user = s.user := by
  obtain ⟨so, uo, po⟩ := s
  cases uo <;> cases he : env.dbUpdateError <;> simp [resetUserData, he]

/-- `updateProfile` never touches the `session` and `user` cells. -/
theorem updateProfile_preserves_auth (env : UpdateEnv)
    (us : List (String × JsonVal)) (s : AuthState) :
    (updateProfile env us s).2.1.session = s.session ∧
    (updateProfile env us s).2.1.user = s.user := by
  obtain ⟨so, uo, po⟩ := s
  cases uo <;> cases he : env.dbUpdateError <;> simp [updateProfile, he]

/-- C4: the authentication context keeps the SDK session and the exposed
state synchronized: in every reachable state of the provider, `session`
is null if and only if `user` is null, because every transition
(auth-state-change event, initialization, `signOut`, `deleteAccount`,
and the profile-only updates) either sets both from the same SDK session
or clears both together. -/
theorem authProvider_session_iff_user (s : AuthState) (h : Reachable s) :
    s.session = none ↔ s.user = none := by
  induction h with
  | init => simp [clearedState]
  | authChange s sess hr ih =>
      cases sess <;> simp [onAuthStateChange, clearedState]
  | profileFetched s p hr ih => simpa [setFetchedProfile] using ih
  | signOutStep s env hr ih =>
      cases he : env.signOutError <;> simp [signOut, he, clearedState]
  | deleteStep s env hr ih =>
      rcases deleteAccount_state env s with h1 | h1 <;> rw [h1]
      · exact ih
      · simp [clearedState]
  | resetStep s env hr ih =>
      have h1 := resetUserData_preserves_auth env s
      rw [h1.1, h1.2]; exact ih
  | updateStep s env us hr ih =>
      have h1 := updateProfile_preserves_auth env us s
      rw [h1.1, h1.2]; exact ih

/-- Witness for C4: the invariant holds at the reachable initial state. -/
theorem authProvider_session_iff_user_check :
    clearedState.session = none ↔ clearedState.user = none :=
  authProvider_session_iff_user clearedState Reachable.init

/-- C5: for every call to `updateProfile`, if no user is authenticated
it throws `User not authenticated` without issuing any backend call and
with the local profile unchanged; otherwise it updates the `profiles`
row keyed on the id of the authenticated user with exactly the given
updates and, on success, merges those updates into the local profile,
leaving every field not named in the updates unchanged. -/
theorem updateProfile_spec (env : UpdateEnv) (us : List (String × JsonVal))
    (s : AuthState) :
    (s.user = none →
      updateProfile env us s = (.error "User not authenticated", s, [])) ∧
    (∀ u, s.user = some u → env.dbUpdateError = none →
      (updateProfile env us s).2.2 = [Effect.dbUpdate "profiles" u.id us] ∧
      (updateProfile env us s).1 = .ok () ∧
      (updateProfile env us s).2.1.profile =
        s.profile.map (fun p => applyUpdates p us) ∧
      (updateProfile env us s).2.1.session = s.session ∧
      (updateProfile env us s).2.1.user = s.user ∧
      (∀ (p : Profile) (k : String), k ∉ us.map Prod.fst →
        applyUpdates p us k = p k)) := by
  constructor
  · intro hn
    simp [updateProfile, hn]
  · intro u hu hok
    have hfx : updateProfile env us s =
        (.ok (), { s with profile := s.profile.map (fun p => applyUpdates p us) },
         [Effect.dbUpdate "profiles" u.id us]) := by
      simp [updateProfile, hu, hok]
    rw [hfx]
    exact ⟨rfl, rfl, rfl, rfl, rfl, fun p k hk => applyUpdates_not_mem us p k hk⟩

/-- A concrete single-field profile update. -/
def wUpdates : List (String × JsonVal) := [("full_name", JsonVal.str "Ada")]

/-- Witness for C5: a concrete authenticated update issues exactly the
one row update carrying the given updates. -/
theorem updateProfile_spec_check :
    (updateProfile ⟨none⟩ wUpdates wState).2.2 =
      [Effect.dbUpdate "profiles" wUser.id wUpdates] :=
  ((updateProfile_spec ⟨none⟩ wUpdates wState).2 wUser rfl rfl).1

/-- Counterexample to C6 as stated: a failed personality-report download
in the profile view is a failed SDK call reaching a UI component, yet
its effect trace contains no error toast (the code only logs it). -/
theorem report_download_failure_shows_no_toast :
    wViewEnvErr.downloadResult = .error "Object not found" ∧
    ((fetchPersonalityData wViewEnvErr wUser (some wProfileWithTiles)).2).filter
        Effect.isToastError = [] := by
  exact ⟨rfl, rfl⟩

/-- C6 as amended: the sign-in and logout handlers convert every SDK
rejection into a user-facing error toast and never propagate it, but the
personality report download in the profile view is an exception: its
failure is only logged and produces no toast. -/
theorem ui_toast_error_handling (envO : OAuthEnv) (origin : String)
    (envS : SignOutEnv) (s : AuthState) (envP : ProfileViewEnv) (u : UserT)
    (p : Option Profile) :
    (handleGoogleSignIn envO origin).1 = .ok () ∧
    (envO.oauthError.isSome →
      Effect.toastError "Failed to sign in with Google. Please try again."
        ∈ (handleGoogleSignIn envO origin).2.2) ∧
    (handleLogout envS s).1 = .ok () ∧
    (envS.signOutError.isSome →
      Effect.toastError "Failed to log out. Please try again."
        ∈ (handleLogout envS s).2.2) ∧
    ((fetchPersonalityData envP u p).2).filter Effect.isToastError = [] := by
  refine ⟨?_, ?_, ?_, ?_, ?_⟩
  · cases ho : envO.oauthError <;>
      simp [handleGoogleSignIn, signInWithGoogle, ho]
  · cases ho : envO.oauthError <;>
      simp [handleGoogleSignIn, signInWithGoogle, ho]
  · cases hs : envS.signOutError <;> simp [handleLogout, signOut, hs]
  · cases hs : envS.signOutError <;> simp [handleLogout, signOut, hs]
  · cases hd : envP.downloadResult <;>
      simp [fetchPersonalityData, hd, Effect.isToastError]

/-- Witness for the amended C6: a concrete failing sign-in is not
propagated to React. -/
theorem ui_toast_error_handling_check :
    (handleGoogleSignIn ⟨some "popup closed"⟩ "https://app.example").1 = .ok () :=
  (ui_toast_error_handling ⟨some "popup closed"⟩ "https://app.example"
    ⟨some "network"⟩ wState wViewEnvErr wUser (some wProfileWithTiles)).1

/-- C7: every press of the Google button calls the SDK `signInWithOAuth`
with provider `google`, redirect URL equal to the current window origin,
and scopes `email profile`; `signInWithGoogle` throws exactly when the
SDK reports an error; the button is disabled for the duration of the
call (`loading` is set before the SDK call and reset after it) and
`loading` returns to false on every outcome. -/
theorem signInWithGoogle_oauth_call (env : OAuthEnv) (origin : String) :
    (signInWithGoogle env origin).2 =
      [Effect.oauthSignIn "google" origin "email profile"] ∧
    ((signInWithGoogle env origin).1 = .ok () ↔ env.oauthError = none) ∧
    (handleGoogleSignIn env origin).2.1 = false ∧
    ((handleGoogleSignIn env origin).2.2).head? =
      some (Effect.setLoading true) ∧
    ((handleGoogleSignIn env origin).2.2).getLast? =
      some (Effect.setLoading false) ∧
    Effect.oauthSignIn "google" origin "email profile"
      ∈ (handleGoogleSignIn env origin).2.2 := by
  cases ho : env.oauthError <;>
    simp [signInWithGoogle, handleGoogleSignIn, ho]

/-- Witness for C7: a concrete successful press issues the expected
OAuth call. -/
theorem signInWithGoogle_oauth_call_check :
    (signInWithGoogle ⟨none⟩ "https://app.example").2 =
      [Effect.oauthSignIn "google" "https://app.example" "email profile"] :=
  (signInWithGoogle_oauth_call ⟨none⟩ "https://app.example").1

/-- C8: `signOut` clears the local authentication state unconditionally:
whether the SDK sign-out succeeds or fails, `session`, `user` and
`profile` are all set to null and navigation to `/` occurs; on SDK
failure the error is additionally rethrown after the state is cleared,
so the state change is never rolled back. -/
theorem signOut_clears_unconditionally (env : SignOutEnv) (s : AuthState) :
    (signOut env s).2.1 = clearedState ∧
    (signOut env s).2.1.session = none ∧
    (signOut env s).2.1.user = none ∧
    (signOut env s).2.1.profile = none ∧
    Effect.navigate "/" ∈ (signOut env s).2.2 ∧
    (env.signOutError = none → (signOut env s).1 = .ok ()) ∧
    (∀ e, env.signOutError = some e → (signOut env s).1 = .error e) := by
  cases he : env.signOutError <;>
    simp [signOut, he, clearedState]

/-- Witness for C8: a concrete failing SDK sign-out still leaves the
state fully cleared. -/
theorem signOut_clears_unconditionally_check :
    (signOut ⟨some "network down"⟩ wState).2.1 = clearedState :=
  (signOut_clears_unconditionally ⟨some "network down"⟩ wState).1

/-- C9: `resetUserData` is ordered and partially fault-tolerant: when
the database update fails it throws after issuing only that update — no
storage removal, no local state change, no navigation; when the update
succeeds, the storage removal outcome is swallowed (the result does not
depend on it at all) and the call still completes, resetting the local
profile fields and navigating to `/`. -/
theorem resetUserData_ordering_fault_tolerance (env : ResetEnv)
    (s : AuthState) (u : UserT) (hu : s.user = some u) :
    (∀ e, env.dbUpdateError = some e →
      (resetUserData env s).1 = .error e ∧
      (resetUserData env s).2.1 = s ∧
      (resetUserData env s).2.2 =
        [Effect.dbUpdate "profiles" u.id resetUpdates]) ∧
    (env.dbUpdateError = none →
      (resetUserData env s).1 = .ok () ∧
      (resetUserData env s).2.2 =
        [Effect.dbUpdate "profiles" u.id resetUpdates,
         Effect.storageRemove "user_files" (reportPath u.id),
         Effect.navigate "/"] ∧
      (resetUserData env s).2.1.profile =
        s.profile.map (fun p => applyUpdates p resetUpdates)) ∧
    (∀ b, resetUserData ⟨env.dbUpdateError, b⟩ s = resetUserData env s) := by
  refine ⟨?_, ?_, ?_⟩
  · intro e he
    simp [resetUserData, hu, he]
  · intro hok
    simp [resetUserData, hu, hok]
  · intro b
    rfl

/-- A concrete backend environment where the reset database update
fails. -/
def wResetEnvErr : ResetEnv := ⟨some "row level security violation", false⟩

/-- Witness for C9: a concrete failing database update leaves the state
untouched and issues no storage removal and no navigation. -/
theorem resetUserData_ordering_fault_tolerance_check :
    (resetUserData wResetEnvErr wState).2.2 =
      [Effect.dbUpdate "profiles" wUser.id resetUpdates] :=
  ((resetUserData_ordering_fault_tolerance wResetEnvErr wState wUser rfl).1
    "row level security violation" rfl).2.2

/-- C10: `getGoogleAuthToken` never rejects: for every provider state it
resolves (never an exception) to either a provider token string or null
— null whenever there is no current session, the refreshed session
carries no (or an empty) provider token, or the SDK `getSession` call
reports an error. -/
theorem getGoogleAuthToken_never_rejects (env : TokenEnv) (s : AuthState) :
    (∃ r : Option String, getGoogleAuthToken env s = .ok r) ∧
    (s.session = none → getGoogleAuthToken env s = .ok none) ∧
    (env.getSessionError.isSome → getGoogleAuthToken env s = .ok none) ∧
    (env.refreshedSession = none → getGoogleAuthToken env s = .ok none) ∧
    (∀ rsess, env.refreshedSession = some rsess →
      rsess.provider_token = none → getGoogleAuthToken env s = .ok none) ∧
    (∀ sess rsess t, s.session = some sess → env.getSessionError = none →
      env.refreshedSession = some rsess → rsess.provider_token = some t →
      t ≠ "" → getGoogleAuthToken env s = .ok (some t)) := by
  refine ⟨?_, ?_, ?_, ?_, ?_, ?_⟩
  · cases h : getGoogleAuthTokenBody env s with
    | ok r => exact ⟨r, by simp [getGoogleAuthToken, h]⟩
    | error e => exact ⟨none, by simp [getGoogleAuthToken, h]⟩
  · intro hn
    simp [getGoogleAuthToken, getGoogleAuthTokenBody, hn]
  · intro hse
    obtain ⟨e, he⟩ := Option.isSome_iff_exists.mp hse
    cases hs : s.session <;>
      simp [getGoogleAuthToken, getGoogleAuthTokenBody, hs, he]
  · intro hr
    cases hs : s.session <;> cases he : env.getSessionError <;>
      simp [getGoogleAuthToken, getGoogleAuthTokenBody, hs, he, hr]
  · intro rsess hr hp
    cases hs : s.session <;> cases he : env.getSessionError <;>
      simp [getGoogleAuthToken, getGoogleAuthTokenBody, hs, he, hr, hp]
  · intro sess rsess t hs he hr hp ht
    simp [getGoogleAuthToken, getGoogleAuthTokenBody, hs, he, hr, hp, ht]

/-- A concrete token environment with a refreshed session carrying a
provider token. -/
def wTokenEnv : TokenEnv := ⟨none, some wSession⟩

/-- Witness for C10: a concrete call resolves without rejection. -/
theorem getGoogleAuthToken_never_rejects_check :
    ∃ r : Option String, getGoogleAuthToken wTokenEnv wState = .ok r :=
  (getGoogleAuthToken_never_rejects wTokenEnv wState).1

end CityScout
